import Mathlib

/-!
Verification of `other_expense_tracker.py`: a three-stage expense pipeline
(extract relevant records, aggregate three buckets with an optional
enrichment narrative, render a report) threaded through a mutable state.
Python floats are modelled as rationals, dictionary records as structures
with optional fields, exceptions as `Except`/`Option`.
-/

/-- A Python value stored under the `amount` key: either a number
(int/float, modelled as a rational) or a string. -/
inductive Amount where
  | num (q : ℚ)
  | str (s : String)
deriving DecidableEq, Repr

/-- One record of the `expenses` list.  `category`/`amount`/`date` model the
dictionary keys; a `none` field models a key that is absent from the dict. -/
structure ExpenseRecord where
  id : Option Int := none
  category : Option String := none
  amount : Option Amount := none
  date : Option String := none
deriving DecidableEq, Repr

/-- `key_categories` from `extract_other_expenses_node`. -/
def key_categories : List String :=
  ["auditor", "legal", "professional", "travel", "administrative"]

/-- Keyword set of the auditor bucket (line 100 of the source). -/
def auditorKeywords : List String := ["auditor"]

/-- Keyword set of the legal/professional bucket (line 105). -/
def legalProfKeywords : List String := ["legal", "professional"]

/-- Keyword set of the travel/administrative bucket (line 110). -/
def travelAdminKeywords : List String := ["travel", "administrative"]

/-- `str(exp.get("category", ""))`: a missing category key reads as `""`. -/
def categoryOf (r : ExpenseRecord) : String := r.category.getD ""

/-- Python `needle in hay` on strings: substring test. -/
def strContains (hay needle : String) : Bool :=
  decide (needle.toList <:+: hay.toList)

/-- Python `str.lower()`: per-character ASCII lowercasing (`String.toLower`
written character-by-character over the underlying list). -/
def lowerString (s : String) : String := String.mk (s.toList.map Char.toLower)

/-- `any(kw in str(exp.get("category","")).lower() for kw in kws)`. -/
def matchesKeywords (kws : List String) (r : ExpenseRecord) : Bool :=
  kws.any fun kw => strContains (lowerString (categoryOf r)) kw

/-- The filter predicate of `extract_other_expenses_node` (line 84). -/
def matchesAnyKeyword (r : ExpenseRecord) : Bool :=
  matchesKeywords key_categories r

/-- Model of Python `float(s)` on a string: an optional sign, digits, and an
optional fractional part (decimal literals; no exponent/inf/nan, which no
claim exercises).  `"abc"` parses to `none`. -/
def parseDecimal (s : String) : Option ℚ :=
  let cs := s.toList
  let signAndRest : ℚ × List Char :=
    match cs with
    | '-' :: rest => (-1, rest)
    | '+' :: rest => (1, rest)
    | _ => (1, cs)
  let sgn := signAndRest.1
  let body := signAndRest.2
  let intPart := body.takeWhile (· ≠ '.')
  let digitsVal : List Char → ℚ :=
    fun ds => ds.foldl (fun a c => a * 10 + (c.toNat - 48 : ℕ)) 0
  match body.dropWhile (· ≠ '.') with
  | [] =>
    if intPart ≠ [] ∧ intPart.all Char.isDigit then
      some (sgn * digitsVal intPart)
    else none
  | _ :: fracPart =>
    if (intPart ≠ [] ∨ fracPart ≠ []) ∧ intPart.all Char.isDigit ∧
        fracPart.all Char.isDigit then
      some (sgn * (digitsVal intPart + digitsVal fracPart / 10 ^ fracPart.length))
    else none

instance {ε α : Type} [DecidableEq ε] [DecidableEq α] : DecidableEq (Except ε α) :=
  fun x y =>
    match x, y with
    | .error a, .error b =>
      if h : a = b then isTrue (by rw [h]) else
        isFalse (by intro hh; cases hh; exact h rfl)
    | .error _, .ok _ => isFalse (by intro hh; cases hh)
    | .ok _, .error _ => isFalse (by intro hh; cases hh)
    | .ok a, .ok b =>
      if h : a = b then isTrue (by rw [h]) else
        isFalse (by intro hh; cases hh; exact h rfl)

/-- `float(exp["amount"])`: a missing key raises `KeyError`, a non-numeric
string raises `ValueError`; both surface as `Except.error`. -/
def coerceAmount (a : Option Amount) : Except String ℚ :=
  match a with
  | none => .error "KeyError: amount"
  | some (.num q) => .ok q
  | some (.str s) =>
    match parseDecimal s with
    | some q => .ok q
    | none => .error ("could not convert string to float: " ++ s)

/-- `sum(float(exp["amount"]) for exp in items if p exp)`: left-to-right, the
first coercion failure aborts the whole sum with that error. -/
def sumFloat (p : ExpenseRecord → Bool) : List ExpenseRecord → Except String ℚ
  | [] => .ok 0
  | x :: xs =>
    if p x then
      match coerceAmount x.amount with
      | .error e => .error e
      | .ok q =>
        match sumFloat p xs with
        | .error e => .error e
        | .ok s => .ok (q + s)
    else sumFloat p xs

/-- Lines 98–111: the three bucket sums, evaluated in source order
(auditor, then legal/professional, then travel/administrative); the first
failure aborts the aggregation. -/
def calcSums (items : List ExpenseRecord) : Except String (ℚ × ℚ × ℚ) :=
  match sumFloat (matchesKeywords auditorKeywords) items with
  | .error e => .error e
  | .ok a =>
    match sumFloat (matchesKeywords legalProfKeywords) items with
    | .error e => .error e
    | .ok l =>
      match sumFloat (matchesKeywords travelAdminKeywords) items with
      | .error e => .error e
      | .ok t => .ok (a, l, t)

/-- Python `f"{x:.2f}"` on our rational model of the float: two decimal
places, rounding half away from zero toward the larger magnitude.  Exact for
every amount with at most two decimal digits, which covers all displayed
values of this program. -/
def fmt2 (q : ℚ) : String :=
  let n : Int :=
    if q.num < 0 then -((200 * (-q.num) + (q.den : Int)).fdiv (2 * (q.den : Int)))
    else (200 * q.num + (q.den : Int)).fdiv (2 * (q.den : Int))
  let m := n.natAbs
  (if n < 0 then "-" else "") ++ toString (m / 100) ++ "." ++
    (if m % 100 < 10 then "0" else "") ++ toString (m % 100)

/-- Lines 124–128: the fallback analysis text, an f-string template built
only from the three bucket sums. -/
def analysisFallback (a l t : ℚ) : String :=
  "Analysis Summary:\n- Total audit-related fees: $" ++ fmt2 a ++
  "\n- Legal and professional services: $" ++ fmt2 l ++
  "\n- Travel and administrative costs: $" ++ fmt2 t ++
  "\n- No significant anomalies detected in expense patterns"

/-- The dictionary stored in `state["calculated_other_expenses"]`
(lines 130–136). -/
structure CalcResult where
  auditor_fees : ℚ
  legal_and_professional_charges : ℚ
  travel_and_administrative_expenses : ℚ
  total_other_expenses : ℚ
  ai_analysis : String
deriving DecidableEq, Repr

/-- `ExpenseState`.  `raw_data` models `state["raw_data"].get("expenses", [])`
(the only part of the raw dict the pipeline reads); the empty initial dict in
`calculated_other_expenses` is falsy in Python, so the field is an `Option`
with `none` for "absent or empty". -/
structure ExpenseState where
  raw_data : List ExpenseRecord
  expense_items : List ExpenseRecord
  calculated_other_expenses : Option CalcResult
  output : String
  error : Option String
deriving DecidableEq, Repr

/-- Lines 67–91.  The node filters unconditionally: it performs no check of
`state["error"]`.  With the state typed, the `except` branch of the source is
unreachable (iterating a list and `.get` with a default cannot raise). -/
def extract_other_expenses_node (s : ExpenseState) : ExpenseState :=
  { s with expense_items := s.raw_data.filter matchesAnyKeyword }

/-- Lines 94–141.  `enrich` models the LangChain call: `some text` when the
external call returns, `none` when it raises and the fallback template is
used.  A coercion failure in any bucket sum lands in the outer `except`,
records the error and leaves `calculated_other_expenses` untouched. -/
def calculate_other_expenses_node (enrich : Option String) (s : ExpenseState) :
    ExpenseState :=
  match calcSums s.expense_items with
  | .error e => { s with error := some ("Calculation error: " ++ e) }
  | .ok (a, l, t) =>
    let text :=
      match enrich with
      | some t' => t'
      | none => analysisFallback a l t
    { s with
      calculated_other_expenses := some
        { auditor_fees := a
          legal_and_professional_charges := l
          travel_and_administrative_expenses := t
          total_other_expenses := a + l + t
          ai_analysis := text } }

/-- The zero dictionary substituted by `generate_output_node` (lines 148–154)
when `calculated_other_expenses` is absent or empty. -/
def zeroCalc : CalcResult :=
  { auditor_fees := 0
    legal_and_professional_charges := 0
    travel_and_administrative_expenses := 0
    total_other_expenses := 0
    ai_analysis := "No analysis available" }

/-- The 64-character separator row of the report template. -/
def sepLine : String := String.mk (List.replicate 64 '=')

/-- The report f-string of lines 158–185. -/
def renderReport (c : CalcResult) (numItems : ℕ) : String :=
  "\n" ++ sepLine ++ "\n" ++
  "         OTHER EXPENSE CALCULATION REPORT\n" ++
  sepLine ++ "\n\n" ++
  "EXPENSE BREAKDOWN:\n\n" ++
  "1. AUDITOR FEES\n   Amount: $" ++ fmt2 c.auditor_fees ++ "\n\n" ++
  "2. LEGAL AND PROFESSIONAL CHARGES\n   Amount: $" ++
  fmt2 c.legal_and_professional_charges ++ "\n\n" ++
  "3. TRAVEL AND ADMINISTRATIVE EXPENSES\n   Amount: $" ++
  fmt2 c.travel_and_administrative_expenses ++ "\n\n" ++
  sepLine ++ "\n" ++
  "TOTAL OTHER EXPENSES: $" ++ fmt2 c.total_other_expenses ++
  "\n" ++ sepLine ++ "\n\n" ++
  "AI ANALYSIS:\n" ++ c.ai_analysis ++ "\n\n" ++
  "DETAILS:\n• Total Items Processed: " ++ toString numItems ++
  "\n• Reporting Period: Current\n" ++
  "• Framework: Focus on key components with anomaly detection\n"

/-- Lines 144–191.  Substitutes the zero dictionary when the calculated
field is absent/empty, renders the report, and never touches `error` (the
rendering body is total on the typed state, so the `except` branch is
unreachable). -/
def generate_output_node (s : ExpenseState) : ExpenseState :=
  let c := s.calculated_other_expenses.getD zeroCalc
  { s with
    calculated_other_expenses := some c
    output := renderReport c s.expense_items.length }

/-- The linear graph of `build_graph`: extract → calculate → output.  The
edges are unconditional, so every node runs on every invocation. -/
def runPipeline (enrich : Option String) (s : ExpenseState) : ExpenseState :=
  generate_output_node (calculate_other_expenses_node enrich
    (extract_other_expenses_node s))

/-- `initial_state` of `main` (lines 223–229), with the fetched `expenses`
list already in place. -/
def initial_state (raw : List ExpenseRecord) : ExpenseState :=
  { raw_data := raw
    expense_items := []
    calculated_other_expenses := none
    output := ""
    error := none }

/-- Record 1 of the fallback dataset of `fetch_ac_data` (line 54). -/
def exp1 : ExpenseRecord :=
  { id := some 1, category := some "Auditor Fees", amount := some (.num 5000),
    date := some "2024-01-15" }

/-- Record 2 of the fallback dataset (line 55). -/
def exp2 : ExpenseRecord :=
  { id := some 2, category := some "Legal Fees", amount := some (.num 3500),
    date := some "2024-01-20" }

/-- Record 3 of the fallback dataset (line 56). -/
def exp3 : ExpenseRecord :=
  { id := some 3, category := some "Travel Expenses", amount := some (.num 2200),
    date := some "2024-01-25" }

/-- Record 4 of the fallback dataset (line 57). -/
def exp4 : ExpenseRecord :=
  { id := some 4, category := some "Professional Services",
    amount := some (.num 1800), date := some "2024-02-05" }

/-- Record 5 of the fallback dataset (line 58). -/
def exp5 : ExpenseRecord :=
  { id := some 5, category := some "Administrative", amount := some (.num 900),
    date := some "2024-02-10" }

/-- The fallback dataset of `fetch_ac_data` (lines 52–60). -/
def mockExpenses : List ExpenseRecord := [exp1, exp2, exp3, exp4, exp5]

/-! ### Helper lemmas about the bucket sums -/

lemma sumFloat_nil (p : ExpenseRecord → Bool) : sumFloat p [] = .ok 0 := rfl

lemma sumFloat_cons_pos {p : ExpenseRecord → Bool} {x : ExpenseRecord}
    {xs : List ExpenseRecord} {q s : ℚ} (h : p x = true)
    (hq : coerceAmount x.amount = .ok q) (hs : sumFloat p xs = .ok s) :
    sumFloat p (x :: xs) = .ok (q + s) := by
  simp [sumFloat, h, hq, hs]

lemma sumFloat_cons_neg {p : ExpenseRecord → Bool} {x : ExpenseRecord}
    {xs : List ExpenseRecord} (h : p x = false) :
    sumFloat p (x :: xs) = sumFloat p xs := by
  simp [sumFloat, h]

lemma calcSums_ok_iff {items : List ExpenseRecord} {a l t : ℚ} :
    calcSums items = .ok (a, l, t) ↔
      sumFloat (matchesKeywords auditorKeywords) items = .ok a ∧
      sumFloat (matchesKeywords legalProfKeywords) items = .ok l ∧
      sumFloat (matchesKeywords travelAdminKeywords) items = .ok t := by
  unfold calcSums
  rcases h1 : sumFloat (matchesKeywords auditorKeywords) items with e1 | a1 <;>
    rcases h2 : sumFloat (matchesKeywords legalProfKeywords) items with e2 | l1 <;>
      rcases h3 : sumFloat (matchesKeywords travelAdminKeywords) items with e3 | t1 <;>
        simp_all

lemma sumFloat_ok_coerce {p : ExpenseRecord → Bool} {items : List ExpenseRecord}
    {s : ℚ} (h : sumFloat p items = .ok s) :
    ∀ x ∈ items, p x = true → ∃ q, coerceAmount x.amount = .ok q := by
  induction items generalizing s with
  | nil => intro x hx; cases hx
  | cons y ys ih =>
    intro x hx hpx
    rcases List.mem_cons.mp hx with rfl | hx'
    · rw [sumFloat] at h
      rw [hpx] at h
      simp only [if_true] at h
      rcases hc : coerceAmount x.amount with e | q
      · rw [hc] at h; cases h
      · exact ⟨q, rfl⟩
    · cases hpy : p y with
      | false =>
        rw [sumFloat_cons_neg hpy] at h
        exact ih h x hx' hpx
      | true =>
        rw [sumFloat] at h
        rw [hpy] at h
        simp only [if_true] at h
        rcases hc : coerceAmount y.amount with e | q
        · rw [hc] at h; cases h
        · rw [hc] at h
          rcases hs : sumFloat p ys with e' | s'
          · rw [hs] at h; cases h
          · exact ih hs x hx' hpx

lemma sumFloat_nonneg {p : ExpenseRecord → Bool} {items : List ExpenseRecord}
    {s : ℚ} (hall : ∀ x ∈ items, ∀ q, coerceAmount x.amount = .ok q → 0 ≤ q)
    (h : sumFloat p items = .ok s) : 0 ≤ s := by
  induction items generalizing s with
  | nil =>
    rw [sumFloat_nil] at h
    cases h
    exact le_refl 0
  | cons y ys ih =>
    cases hpy : p y with
    | false =>
      rw [sumFloat_cons_neg hpy] at h
      exact ih (fun x hx => hall x (List.mem_cons_of_mem _ hx)) h
    | true =>
      rw [sumFloat] at h
      rw [hpy] at h
      simp only [if_true] at h
      rcases hc : coerceAmount y.amount with e | q
      · rw [hc] at h; cases h
      · rw [hc] at h
        rcases hs : sumFloat p ys with e' | s'
        · rw [hs] at h; cases h
        · rw [hs] at h
          cases h
          have h1 := hall y (List.mem_cons_self _ _) q hc
          have h2 := ih (fun x hx => hall x (List.mem_cons_of_mem _ hx)) hs
          exact add_nonneg h1 h2

lemma sumFloat_zero_of_no_match {p : ExpenseRecord → Bool}
    {items : List ExpenseRecord} (h : ∀ x ∈ items, p x = false) :
    sumFloat p items = .ok 0 := by
  induction items with
  | nil => rfl
  | cons y ys ih =>
    rw [sumFloat_cons_neg (h y (List.mem_cons_self _ _))]
    exact ih fun x hx => h x (List.mem_cons_of_mem _ hx)

lemma matchesAny_or (r : ExpenseRecord) :
    matchesAnyKeyword r =
      (matchesKeywords auditorKeywords r || matchesKeywords legalProfKeywords r ||
        matchesKeywords travelAdminKeywords r) := by
  simp only [matchesAnyKeyword, matchesKeywords, key_categories, auditorKeywords,
    legalProfKeywords, travelAdminKeywords, List.any_cons, List.any_nil,
    Bool.or_false, Bool.or_assoc]

lemma calcNode_error_of_bad_item (enrich : Option String) (s : ExpenseState)
    (x : ExpenseRecord) (hx : x ∈ s.expense_items)
    (hmatch : matchesAnyKeyword x = true)
    (hbad : ∀ q, coerceAmount x.amount ≠ .ok q) :
    ∃ msg, calculate_other_expenses_node enrich s = { s with error := some msg } := by
  rcases hres : calcSums s.expense_items with e | ⟨a, l, t⟩
  · exact ⟨"Calculation error: " ++ e, by
      simp [calculate_other_expenses_node, hres]⟩
  · exfalso
    obtain ⟨hA, hL, hT⟩ := calcSums_ok_iff.mp hres
    have hor := matchesAny_or x
    rw [hmatch] at hor
    rcases Bool.or_eq_true_iff.mp hor.symm with hAL | hTm
    · rcases Bool.or_eq_true_iff.mp hAL with hAm | hLm
      · obtain ⟨q, hq⟩ := sumFloat_ok_coerce hA x hx hAm
        exact hbad q hq
      · obtain ⟨q, hq⟩ := sumFloat_ok_coerce hL x hx hLm
        exact hbad q hq
    · obtain ⟨q, hq⟩ := sumFloat_ok_coerce hT x hx hTm
      exact hbad q hq

/-! ### Concrete evaluations on the fallback dataset -/

lemma mock_filter_eq : mockExpenses.filter matchesAnyKeyword = mockExpenses := by
  decide

lemma mock_sum_auditor :
    sumFloat (matchesKeywords auditorKeywords) mockExpenses = .ok 5000 := by
  have h1 : sumFloat (matchesKeywords auditorKeywords) [exp2, exp3, exp4, exp5] =
      .ok 0 := sumFloat_zero_of_no_match (by decide)
  rw [show mockExpenses = exp1 :: [exp2, exp3, exp4, exp5] from rfl,
    sumFloat_cons_pos (q := 5000) (by decide) (by decide) h1]
  norm_num

lemma mock_sum_legal :
    sumFloat (matchesKeywords legalProfKeywords) mockExpenses = .ok 5300 := by
  have h5 : sumFloat (matchesKeywords legalProfKeywords) [exp5] = .ok 0 :=
    sumFloat_zero_of_no_match (by decide)
  have h4 : sumFloat (matchesKeywords legalProfKeywords) [exp4, exp5] =
      .ok (1800 + 0) := sumFloat_cons_pos (q := 1800) (by decide) (by decide) h5
  have h3 : sumFloat (matchesKeywords legalProfKeywords) [exp3, exp4, exp5] =
      .ok (1800 + 0) := by
    rw [sumFloat_cons_neg (by decide)]; exact h4
  have h2 : sumFloat (matchesKeywords legalProfKeywords) [exp2, exp3, exp4, exp5] =
      .ok (3500 + (1800 + 0)) :=
    sumFloat_cons_pos (q := 3500) (by decide) (by decide) h3
  rw [show mockExpenses = exp1 :: [exp2, exp3, exp4, exp5] from rfl,
    sumFloat_cons_neg (by decide), h2]
  norm_num

lemma mock_sum_travel :
    sumFloat (matchesKeywords travelAdminKeywords) mockExpenses = .ok 3100 := by
  have h5 : sumFloat (matchesKeywords travelAdminKeywords) [exp5] = .ok (900 + 0) :=
    sumFloat_cons_pos (q := 900) (by decide) (by decide) (sumFloat_nil _)
  have h4 : sumFloat (matchesKeywords travelAdminKeywords) [exp4, exp5] =
      .ok (900 + 0) := by
    rw [sumFloat_cons_neg (by decide)]; exact h5
  have h3 : sumFloat (matchesKeywords travelAdminKeywords) [exp3, exp4, exp5] =
      .ok (2200 + (900 + 0)) :=
    sumFloat_cons_pos (q := 2200) (by decide) (by decide) h4
  rw [show mockExpenses = exp1 :: [exp2, exp3, exp4, exp5] from rfl,
    sumFloat_cons_neg (by decide), sumFloat_cons_neg (by decide), h3]
  norm_num

lemma mock_calcSums : calcSums mockExpenses = .ok (5000, 5300, 3100) :=
  calcSums_ok_iff.mpr ⟨mock_sum_auditor, mock_sum_legal, mock_sum_travel⟩

/-! ### Auxiliary concrete states used by counterexamples and witnesses -/

/-- A state that already carries an error when a stage receives it. -/
def errState : ExpenseState :=
  { raw_data := mockExpenses, expense_items := [],
    calculated_other_expenses := none, output := "", error := some "boom" }

/-- A record whose amount is the non-numeric string `"abc"`. -/
def badItem : ExpenseRecord :=
  { category := some "Auditor Fees", amount := some (.str "abc") }

/-- A filtered state containing the `"abc"`-amount record. -/
def badState : ExpenseState :=
  { raw_data := [], expense_items := [badItem],
    calculated_other_expenses := none, output := "", error := none }

/-- A record with a negative amount in the auditor bucket. -/
def negItem : ExpenseRecord :=
  { category := some "Auditor Fees", amount := some (.num (-5)) }

/-- A filtered state containing the negative-amount record. -/
def negState : ExpenseState :=
  { raw_data := [], expense_items := [negItem],
    calculated_other_expenses := none, output := "", error := none }

/-- A record with a matching category but no `amount` key at all. -/
def noAmountItem : ExpenseRecord := { category := some "Travel Expenses" }

/-- A filtered state containing the record without an `amount` key. -/
def noAmountState : ExpenseState :=
  { raw_data := [], expense_items := [noAmountItem],
    calculated_other_expenses := none, output := "", error := none }

/-- A state whose aggregate result is absent and whose error is set. -/
def emptyErrState : ExpenseState :=
  { raw_data := [], expense_items := [],
    calculated_other_expenses := none, output := "", error := some "E" }

/-- The state reaching the aggregator on the fallback dataset. -/
def mockState : ExpenseState :=
  { raw_data := mockExpenses, expense_items := mockExpenses,
    calculated_other_expenses := none, output := "", error := none }

/-! ### Claims -/

/-- C1: for every filtered item list on which aggregation succeeds, the node
stores the three bucket sums, each of which is the independent case-insensitive
re-test of every item against that bucket's keyword set; the grand total is
exactly the sum of the three stored bucket sums; and adding one more item
contributes its coerced amount once to EVERY bucket whose keyword set its
label matches (so a multi-matching item contributes to several bucket sums). -/
theorem calc_bucket_sums_and_grand_total (enrich : Option String)
    (s : ExpenseState) (a l t : ℚ)
    (h : calcSums s.expense_items = .ok (a, l, t)) :
    (∃ c, (calculate_other_expenses_node enrich s).calculated_other_expenses =
        some c ∧
      c.auditor_fees = a ∧ c.legal_and_professional_charges = l ∧
      c.travel_and_administrative_expenses = t ∧
      c.total_other_expenses = a + l + t) ∧
    sumFloat (matchesKeywords auditorKeywords) s.expense_items = .ok a ∧
    sumFloat (matchesKeywords legalProfKeywords) s.expense_items = .ok l ∧
    sumFloat (matchesKeywords travelAdminKeywords) s.expense_items = .ok t ∧
    ∀ x q, coerceAmount x.amount = .ok q →
      calcSums (x :: s.expense_items) = .ok
        ((if matchesKeywords auditorKeywords x then q else 0) + a,
         (if matchesKeywords legalProfKeywords x then q else 0) + l,
         (if matchesKeywords travelAdminKeywords x then q else 0) + t) := by
  obtain ⟨hA, hL, hT⟩ := calcSums_ok_iff.mp h
  refine ⟨?_, hA, hL, hT, ?_⟩
  · unfold calculate_other_expenses_node
    rw [h]
    exact ⟨_, rfl, rfl, rfl, rfl, rfl⟩
  · intro x q hq
    apply calcSums_ok_iff.mpr
    refine ⟨?_, ?_, ?_⟩
    · cases hbx : matchesKeywords auditorKeywords x with
      | true => rw [sumFloat_cons_pos hbx hq hA]; simp
      | false => rw [sumFloat_cons_neg hbx, hA]; simp
    · cases hbx : matchesKeywords legalProfKeywords x with
      | true => rw [sumFloat_cons_pos hbx hq hL]; simp
      | false => rw [sumFloat_cons_neg hbx, hL]; simp
    · cases hbx : matchesKeywords travelAdminKeywords x with
      | true => rw [sumFloat_cons_pos hbx hq hT]; simp
      | false => rw [sumFloat_cons_neg hbx, hT]; simp

theorem calc_bucket_sums_and_grand_total_witness :
    ∃ c, (calculate_other_expenses_node none mockState).calculated_other_expenses =
        some c ∧ c.total_other_expenses = 5000 + 5300 + 3100 := by
  obtain ⟨⟨c, hc, _, _, _, htot⟩, _⟩ :=
    calc_bucket_sums_and_grand_total none mockState 5000 5300 3100 mock_calcSums
  exact ⟨c, hc, htot⟩

/-- C2: the classifier returns exactly the order-preserving subsequence of the
input whose lowercased category label contains at least one keyword; a record
with a missing category field never matches and is silently dropped, with no
error recorded. -/
theorem extract_classifier_correct (s : ExpenseState) :
    (extract_other_expenses_node s).expense_items =
        s.raw_data.filter matchesAnyKeyword ∧
    List.Sublist (extract_other_expenses_node s).expense_items s.raw_data ∧
    (∀ r ∈ (extract_other_expenses_node s).expense_items,
      matchesAnyKeyword r = true) ∧
    (∀ r ∈ s.raw_data, matchesAnyKeyword r = true →
      r ∈ (extract_other_expenses_node s).expense_items) ∧
    (∀ r ∈ s.raw_data, r ∉ (extract_other_expenses_node s).expense_items →
      matchesAnyKeyword r = false) ∧
    (∀ r : ExpenseRecord, r.category = none → matchesAnyKeyword r = false) ∧
    (extract_other_expenses_node s).error = s.error := by
  refine ⟨rfl, List.filter_sublist _, ?_, ?_, ?_, ?_, rfl⟩
  · intro r hr
    exact (List.mem_filter.mp hr).2
  · intro r hr hm
    exact List.mem_filter.mpr ⟨hr, hm⟩
  · intro r hr hnot
    cases hbx : matchesAnyKeyword r with
    | false => rfl
    | true => exact absurd (List.mem_filter.mpr ⟨hr, hbx⟩) hnot
  · intro r hcat
    simp only [matchesAnyKeyword, matchesKeywords, categoryOf, hcat]
    decide

theorem extract_classifier_correct_witness :
    exp1 ∈ (extract_other_expenses_node (initial_state mockExpenses)).expense_items ∧
    matchesAnyKeyword { category := none } = false := by
  have h := extract_classifier_correct (initial_state mockExpenses)
  exact ⟨h.2.2.2.1 exp1 (by decide) (by decide), h.2.2.2.2.2.1 _ rfl⟩

/-- C3 counterexample: with an error already recorded on the incoming state,
the extraction stage still overwrites `expense_items`, so it does not return
the state unchanged — the claimed short-circuit does not exist in the code. -/
theorem stage_short_circuit_cex :
    extract_other_expenses_node errState ≠ errState := by
  intro h
  have h2 := congrArg ExpenseState.expense_items h
  simp [extract_other_expenses_node, errState, mock_filter_eq, mockExpenses] at h2
  exact absurd h2.1 (by decide)

/-- C3 amended: neither the extraction stage nor the aggregation stage
inspects the incoming error field; both perform their full work regardless of
a prior error, merely carrying the error value through on their success
paths. -/
theorem stages_run_despite_prior_error (enrich : Option String)
    (s : ExpenseState) (m : String) (a l t : ℚ) (he : s.error = some m)
    (h : calcSums s.expense_items = .ok (a, l, t)) :
    (extract_other_expenses_node s).expense_items =
        s.raw_data.filter matchesAnyKeyword ∧
    (extract_other_expenses_node s).error = some m ∧
    (∃ c, (calculate_other_expenses_node enrich s).calculated_other_expenses =
      some c ∧ c.total_other_expenses = a + l + t) ∧
    (calculate_other_expenses_node enrich s).error = some m := by
  refine ⟨rfl, he, ?_, ?_⟩
  · unfold calculate_other_expenses_node
    rw [h]
    exact ⟨_, rfl, rfl⟩
  · unfold calculate_other_expenses_node
    rw [h]
    exact he

theorem stages_run_despite_prior_error_witness :
    (extract_other_expenses_node errState).expense_items =
        errState.raw_data.filter matchesAnyKeyword ∧
    (extract_other_expenses_node errState).error = some "boom" ∧
    (∃ c, (calculate_other_expenses_node none errState).calculated_other_expenses =
      some c ∧ c.total_other_expenses = 0 + 0 + 0) ∧
    (calculate_other_expenses_node none errState).error = some "boom" :=
  stages_run_despite_prior_error none errState "boom" 0 0 0 rfl rfl

/-- C4: a filtered list containing a bucket-matching item whose amount cannot
be coerced to a number fails the whole aggregation stage: no bucket sums are
stored, an aggregation error is recorded, and the renderer then emits the
all-zero summary report while the error flag stays set. -/
theorem aggregation_fails_on_uncoercible_amount (enrich : Option String)
    (s : ExpenseState) (x : ExpenseRecord) (hx : x ∈ s.expense_items)
    (hm : matchesAnyKeyword x = true)
    (hbad : ∀ q, coerceAmount x.amount ≠ .ok q)
    (hc : s.calculated_other_expenses = none) :
    ∃ msg,
      (calculate_other_expenses_node enrich s).error = some msg ∧
      (calculate_other_expenses_node enrich s).calculated_other_expenses =
        none ∧
      (generate_output_node
        (calculate_other_expenses_node enrich s)).calculated_other_expenses =
        some zeroCalc ∧
      (generate_output_node (calculate_other_expenses_node enrich s)).output =
        renderReport zeroCalc s.expense_items.length ∧
      (generate_output_node (calculate_other_expenses_node enrich s)).error =
        some msg := by
  obtain ⟨msg, heq⟩ := calcNode_error_of_bad_item enrich s x hx hm hbad
  refine ⟨msg, ?_, ?_, ?_, ?_, ?_⟩ <;> rw [heq] <;>
    simp [generate_output_node, hc]

theorem aggregation_fails_on_uncoercible_amount_witness :
    ∃ msg,
      (calculate_other_expenses_node none badState).error = some msg ∧
      (calculate_other_expenses_node none badState).calculated_other_expenses =
        none ∧
      (generate_output_node
        (calculate_other_expenses_node none badState)).calculated_other_expenses =
        some zeroCalc ∧
      (generate_output_node (calculate_other_expenses_node none badState)).output =
        renderReport zeroCalc badState.expense_items.length ∧
      (generate_output_node (calculate_other_expenses_node none badState)).error =
        some msg :=
  aggregation_fails_on_uncoercible_amount none badState badItem (by decide)
    (by decide)
    (by
      intro q hq
      rw [show coerceAmount badItem.amount =
        Except.error "could not convert string to float: abc" from by decide] at hq
      cases hq)
    rfl

/-- C5: the renderer is total: it preserves the error field as-is, and when
the aggregate result is absent it substitutes the all-zero summary with the
placeholder narrative and still renders the report from it. -/
theorem renderer_never_fails (s : ExpenseState) :
    (generate_output_node s).error = s.error ∧
    (generate_output_node s).output =
      renderReport (s.calculated_other_expenses.getD zeroCalc)
        s.expense_items.length ∧
    (s.calculated_other_expenses = none →
      (generate_output_node s).calculated_other_expenses = some zeroCalc ∧
      (generate_output_node s).output =
        renderReport zeroCalc s.expense_items.length) ∧
    zeroCalc.auditor_fees = 0 ∧ zeroCalc.legal_and_professional_charges = 0 ∧
    zeroCalc.travel_and_administrative_expenses = 0 ∧
    zeroCalc.total_other_expenses = 0 ∧
    zeroCalc.ai_analysis = "No analysis available" := by
  refine ⟨rfl, rfl, ?_, rfl, rfl, rfl, rfl, rfl⟩
  intro h
  exact ⟨by simp [generate_output_node, h], by simp [generate_output_node, h]⟩

theorem renderer_never_fails_witness :
    (generate_output_node emptyErrState).error = some "E" ∧
    (generate_output_node emptyErrState).calculated_other_expenses =
      some zeroCalc := by
  have h := renderer_never_fails emptyErrState
  exact ⟨h.1, (h.2.2.1 rfl).1⟩

/-- C6: when the enrichment call fails (modelled by `enrich = none`), the
narrative stored with the aggregate result is the deterministic template
applied to the three already-computed bucket sums alone, reporting each
bucket's dollar amount and stating that no significant anomalies were
detected. -/
theorem fallback_narrative_from_sums (s : ExpenseState) (a l t : ℚ)
    (h : calcSums s.expense_items = .ok (a, l, t)) :
    ∃ c, (calculate_other_expenses_node none s).calculated_other_expenses =
        some c ∧
      c.ai_analysis = analysisFallback a l t ∧
      analysisFallback a l t =
        "Analysis Summary:\n- Total audit-related fees: $" ++ fmt2 a ++
        "\n- Legal and professional services: $" ++ fmt2 l ++
        "\n- Travel and administrative costs: $" ++ fmt2 t ++
        "\n- No significant anomalies detected in expense patterns" := by
  unfold calculate_other_expenses_node
  rw [h]
  exact ⟨_, rfl, rfl, rfl⟩

theorem fallback_narrative_from_sums_witness :
    ∃ c, (calculate_other_expenses_node none
        (initial_state mockExpenses)).calculated_other_expenses = some c ∧
      c.ai_analysis = analysisFallback 0 0 0 := by
  obtain ⟨c, h1, h2, h3⟩ :=
    fallback_narrative_from_sums (initial_state mockExpenses) 0 0 0 rfl
  exact ⟨c, h1, h2⟩

/-- C7: on the five-record fallback dataset with enrichment forced to its
fallback, the pipeline stores auditor 5000, legal/professional 5300,
travel/administrative 3100 and grand total 13400 (displayed as 5000.00,
5300.00, 3100.00 and 13400.00), with no error. -/
theorem scenario_five_records :
    (runPipeline none (initial_state mockExpenses)).calculated_other_expenses =
      some { auditor_fees := 5000, legal_and_professional_charges := 5300,
             travel_and_administrative_expenses := 3100,
             total_other_expenses := 13400,
             ai_analysis := analysisFallback 5000 5300 3100 } ∧
    (runPipeline none (initial_state mockExpenses)).error = none ∧
    fmt2 5000 = "5000.00" ∧ fmt2 5300 = "5300.00" ∧
    fmt2 3100 = "3100.00" ∧ fmt2 13400 = "13400.00" := by
  have h1 : extract_other_expenses_node (initial_state mockExpenses) =
      mockState := by
    simp [extract_other_expenses_node, initial_state, mock_filter_eq, mockState]
  have h2 : calculate_other_expenses_node none mockState =
      { mockState with
        calculated_other_expenses := some
          { auditor_fees := 5000, legal_and_professional_charges := 5300,
            travel_and_administrative_expenses := 3100,
            total_other_expenses := 13400,
            ai_analysis := analysisFallback 5000 5300 3100 } } := by
    unfold calculate_other_expenses_node
    have hitems : mockState.expense_items = mockExpenses := rfl
    rw [hitems, mock_calcSums]
    norm_num [mockState]
  refine ⟨?_, ?_, by decide, by decide, by decide, by decide⟩
  · unfold runPipeline
    rw [h1, h2]
    rfl
  · unfold runPipeline
    rw [h1, h2]
    rfl

/-- C8 counterexample: an item with amount `-5` in the auditor bucket makes
the stored auditor total negative, so the bucket totals are not always
non-negative. -/
theorem bucket_total_negative_cex :
    ∃ c, (calculate_other_expenses_node none negState).calculated_other_expenses =
        some c ∧ c.auditor_fees < 0 := by
  have hA : sumFloat (matchesKeywords auditorKeywords) [negItem] = .ok (-5 + 0) :=
    sumFloat_cons_pos (q := -5) (by decide) (by decide) (sumFloat_nil _)
  have hL : sumFloat (matchesKeywords legalProfKeywords) [negItem] = .ok 0 :=
    sumFloat_zero_of_no_match (by decide)
  have hT : sumFloat (matchesKeywords travelAdminKeywords) [negItem] = .ok 0 :=
    sumFloat_zero_of_no_match (by decide)
  have hs : calcSums [negItem] = .ok (-5 + 0, 0, 0) :=
    calcSums_ok_iff.mpr ⟨hA, hL, hT⟩
  unfold calculate_other_expenses_node
  have hitems : negState.expense_items = [negItem] := rfl
  rw [hitems, hs]
  exact ⟨_, rfl, by norm_num⟩

/-- C8 amended: each bucket total defaults to 0 when no item matches that
bucket, and the totals are non-negative whenever every coercible amount in
the filtered list is non-negative; a negative amount is summed as-is and can
make a bucket total negative. -/
theorem bucket_totals_default_zero_and_nonneg (items : List ExpenseRecord)
    (a l t : ℚ) (h : calcSums items = .ok (a, l, t)) :
    ((∀ x ∈ items, ∀ q, coerceAmount x.amount = .ok q → 0 ≤ q) →
      0 ≤ a ∧ 0 ≤ l ∧ 0 ≤ t) ∧
    ((∀ x ∈ items, matchesKeywords auditorKeywords x = false) → a = 0) ∧
    ((∀ x ∈ items, matchesKeywords legalProfKeywords x = false) → l = 0) ∧
    ((∀ x ∈ items, matchesKeywords travelAdminKeywords x = false) → t = 0) := by
  obtain ⟨hA, hL, hT⟩ := calcSums_ok_iff.mp h
  refine ⟨fun hall => ⟨sumFloat_nonneg hall hA, sumFloat_nonneg hall hL,
    sumFloat_nonneg hall hT⟩, fun hn => ?_, fun hn => ?_, fun hn => ?_⟩
  · have h0 := sumFloat_zero_of_no_match hn
    rw [hA] at h0
    exact Except.ok.inj h0
  · have h0 := sumFloat_zero_of_no_match hn
    rw [hL] at h0
    exact Except.ok.inj h0
  · have h0 := sumFloat_zero_of_no_match hn
    rw [hT] at h0
    exact Except.ok.inj h0

theorem bucket_totals_default_zero_and_nonneg_witness :
    (0:ℚ) ≤ 5000 ∧ (0:ℚ) ≤ 5300 ∧ (0:ℚ) ≤ 3100 :=
  (bucket_totals_default_zero_and_nonneg mockExpenses 5000 5300 3100
    mock_calcSums).1
    (by
      intro x hx q hq
      fin_cases hx <;>
        simp_all [coerceAmount, exp1, exp2, exp3, exp4, exp5] <;>
        rw [← hq] <;> norm_num)

/-- C9: no stage ever clears the error field — extraction and rendering leave
it untouched, aggregation either leaves it or overwrites it with a message —
so a state entering the pipeline with an error set leaves it with an error
set. -/
theorem error_field_monotone (enrich : Option String) (s : ExpenseState) :
    (extract_other_expenses_node s).error = s.error ∧
    ((calculate_other_expenses_node enrich s).error = s.error ∨
      ∃ m, (calculate_other_expenses_node enrich s).error = some m) ∧
    (generate_output_node s).error = s.error ∧
    (s.error ≠ none → (runPipeline enrich s).error ≠ none) := by
  refine ⟨rfl, ?_, rfl, ?_⟩
  · unfold calculate_other_expenses_node
    rcases hres : calcSums s.expense_items with e | ⟨a, l, t⟩
    · exact Or.inr ⟨_, rfl⟩
    · exact Or.inl rfl
  · intro hne
    have hgen : (runPipeline enrich s).error =
        (calculate_other_expenses_node enrich
          (extract_other_expenses_node s)).error := rfl
    rw [hgen]
    unfold calculate_other_expenses_node
    rcases hres : calcSums (extract_other_expenses_node s).expense_items with
      e | ⟨a, l, t⟩
    · simp
    · exact hne

theorem error_field_monotone_witness : (runPipeline none errState).error ≠ none :=
  (error_field_monotone none errState).2.2.2 (by decide)

/-- C10: the aggregator reads the amount field unconditionally for every
bucket-matching item, so a filtered list containing a matching item with no
amount key at all fails the whole aggregation stage with a recorded error,
leaving the aggregate result untouched — whereas a missing category field is
tolerated by the classifier (treated as the empty string). -/
theorem missing_amount_fails_aggregation (enrich : Option String)
    (s : ExpenseState) (x : ExpenseRecord) (hx : x ∈ s.expense_items)
    (hm : matchesAnyKeyword x = true) (ha : x.amount = none) :
    (∃ msg, (calculate_other_expenses_node enrich s).error = some msg ∧
      (calculate_other_expenses_node enrich s).calculated_other_expenses =
        s.calculated_other_expenses ∧
      (calculate_other_expenses_node enrich s).expense_items =
        s.expense_items) ∧
    (∀ r : ExpenseRecord, r.category = none → matchesAnyKeyword r = false) := by
  have hbad : ∀ q, coerceAmount x.amount ≠ .ok q := by
    intro q hq
    rw [ha] at hq
    simp [coerceAmount] at hq
  obtain ⟨msg, heq⟩ := calcNode_error_of_bad_item enrich s x hx hm hbad
  refine ⟨⟨msg, by rw [heq], by rw [heq], by rw [heq]⟩, ?_⟩
  intro r hcat
  simp only [matchesAnyKeyword, matchesKeywords, categoryOf, hcat]
  decide

theorem missing_amount_fails_aggregation_witness :
    (∃ msg, (calculate_other_expenses_node none noAmountState).error = some msg ∧
      (calculate_other_expenses_node none noAmountState).calculated_other_expenses =
        noAmountState.calculated_other_expenses ∧
      (calculate_other_expenses_node none noAmountState).expense_items =
        noAmountState.expense_items) ∧
    (∀ r : ExpenseRecord, r.category = none → matchesAnyKeyword r = false) :=
  missing_amount_fails_aggregation none noAmountState noAmountItem (by decide)
    (by decide) rfl
